import Mathlib

/-!
# PlatformerEngine: the frame loop and camera of `src/main.cpp`

A shallow embedding of `main.cpp`: the start-up sequence (`init`, `loadMedia`),
the level-path selection, the frame loop (step clamp, grid-cell recomputation),
the camera computation of `drawEverything` and the sprite selection of
`drawPlayer`.

Conventions of the embedding.

* C++ `int` is the 32-bit two-complement integer.  A value of type `int` is an
  `Int` in `[INT_MIN, INT_MAX]`, and every arithmetic operation on `int` is
  followed by `wrapInt`, the reduction modulo `2^32` into that range that the
  compiled code performs when a signed operation overflows.  Integer division
  `/` on `int` is `Int.tdiv` (rounding toward zero).
* C++ `double` values are rationals (`ℚ`): every finite double is a rational,
  and comparisons between finite doubles are exact.  Arithmetic on doubles is
  exact rational arithmetic (rounding is not part of the embedding).  The
  conversion `double → int` is `toInt`: truncation toward zero when the
  truncated value is an `int`, and `INT_MIN` otherwise (the result of the x86-64
  conversion instruction on an out-of-range operand).
* Calls into SDL, SDL_image and the classes whose sources are outside
  `main.cpp` (`World`, `Player`, `Texture`, `Animation`) are parameters: their
  results are inputs of the model.
-/

namespace PlatformerEngine

/-! ## Constants (main.cpp:16-17, 80) -/

/-- Viewport width in pixels: `const int SCREEN_WIDTH = 1600`. -/
def SCREEN_WIDTH : Int := 1600

/-- Viewport height in pixels: `const int SCREEN_HEIGHT = 900`. -/
def SCREEN_HEIGHT : Int := 900

/-- The step bound `const double MAX_TIMESTEP = 0.0034`, as the exact value of the
double nearest to the decimal literal: `7839866231326559 / 2^61`. -/
def MAX_TIMESTEP : ℚ := 7839866231326559 / 2305843009213693952

/-! ## Data model -/

/-- Modelled from the spec: the `World` class (world.h) is outside main.cpp; the
getters main.cpp reads are `getWidth`, `getHeight` (in tiles), `getTileSize`
(pixels), `getPlayerStartX`, `getPlayerStartY`. -/
structure World where
  width : Int
  height : Int
  tileSize : Int
  playerStartX : Int
  playerStartY : Int
  deriving DecidableEq

/-- Modelled from the spec: the facing flag of the actor (left/right); the
declaration (player.h, constants.h) is outside main.cpp, which only compares it
with `RIGHT`. -/
inductive Facing where
  | LEFT
  | RIGHT
  deriving DecidableEq

/-- Modelled from the spec: the `Player` class (player.h) is outside main.cpp.
Position and velocity are real-valued (`double`), the grid cell and the bounding
dimensions are `int`. -/
structure Player where
  xPos : ℚ
  yPos : ℚ
  xVel : ℚ
  yVel : ℚ
  width : Int
  height : Int
  facing : Facing
  mapX : Int
  mapY : Int
  deriving DecidableEq

/-- The least value of a C++ `int` (32 bits). -/
def INT_MIN : Int := -2147483648

/-- The greatest value of a C++ `int` (32 bits). -/
def INT_MAX : Int := 2147483647

/-- The result of an `int` operation whose mathematical value is `n`: `n` itself
when it lies in `[INT_MIN, INT_MAX]`, otherwise `n` reduced modulo `2^32` into
that range (two-complement wrap-around). -/
def wrapInt (n : Int) : Int := (n + 2147483648) % 4294967296 - 2147483648

/-- The integer part of a rational, rounding toward zero: on the reduced fraction
`num / den`, the truncating integer division of the numerator by the
denominator. -/
def truncQ (q : ℚ) : Int := Int.tdiv q.num (q.den : Int)

/-- C++ conversion of a `double` to `int`: the fractional part is discarded
(truncation toward zero) when the truncated value is an `int`; outside that range
the conversion gives `INT_MIN`. -/
def toInt (q : ℚ) : Int :=
  if INT_MIN ≤ truncQ q ∧ truncQ q ≤ INT_MAX then truncQ q else INT_MIN

/-! ## Camera (drawEverything, main.cpp:195-220) -/

/-- The `int` value of `level->getWidth() * tileSize`: the pixel width of the
world as the code computes it. -/
def worldWidthPx (level : World) : Int := wrapInt (level.width * level.tileSize)

/-- The `int` value of `level->getHeight() * tileSize`: the pixel height of the
world as the code computes it. -/
def worldHeightPx (level : World) : Int := wrapInt (level.height * level.tileSize)

/-- The camera computation of `drawEverything` (main.cpp:197-220): from the actor
centre `(camX, camY)` to the camera origin handed to `drawWorld`, `drawHitBoxes`
and `drawPlayer`.  Every `int` operation is followed by `wrapInt`. -/
def drawEverythingCam (level : World) (camX camY : Int) : Int × Int :=
  let tileSize := level.tileSize
  let camX := wrapInt (camX - Int.tdiv SCREEN_WIDTH 2)
  let camY := wrapInt (camY - Int.tdiv SCREEN_HEIGHT 2)
  let camX :=
    if SCREEN_WIDTH ≥ wrapInt (level.width * tileSize) then
      wrapInt (Int.tdiv (wrapInt (level.width * tileSize)) 2 - Int.tdiv SCREEN_WIDTH 2)
    else if camX < wrapInt (-tileSize) then
      wrapInt (-tileSize)
    else if wrapInt (wrapInt (camX + SCREEN_WIDTH) - tileSize) >
        wrapInt (level.width * tileSize) then
      wrapInt (wrapInt (wrapInt (level.width * tileSize) - SCREEN_WIDTH) + tileSize)
    else camX
  let camY :=
    if SCREEN_HEIGHT ≥ wrapInt (level.height * tileSize) then
      wrapInt (Int.tdiv (wrapInt (level.height * tileSize)) 2 - Int.tdiv SCREEN_HEIGHT 2)
    else if camY < wrapInt (-tileSize) then
      wrapInt (-tileSize)
    else if wrapInt (wrapInt (camY + SCREEN_HEIGHT) - tileSize) >
        wrapInt (level.height * tileSize) then
      wrapInt (wrapInt (wrapInt (level.height * tileSize) - SCREEN_HEIGHT) + tileSize)
    else camY
  (camX, camY)

/-- The animations of the player: `enum playerTextures` (main.cpp:60-63). -/
inductive PlayerTexture where
  | PLAYER_IDLE
  | PLAYER_WALKING
  deriving DecidableEq

/-- One call `playerAnimations[anim].render( x, y [, SDL_FLIP_HORIZONTAL] )`;
`flip` tells whether `SDL_FLIP_HORIZONTAL` is passed. -/
structure RenderCall where
  anim : PlayerTexture
  x : Int
  y : Int
  flip : Bool
  deriving DecidableEq

/-- The sprite selection of `drawPlayer` (main.cpp:250-283): the list of render
calls it makes, in order. -/
def drawPlayer (player : Player) (camX camY : Int) : List RenderCall :=
  let renderX := toInt (player.xPos - (camX : ℚ))
  let renderY := toInt (player.yPos - (camY : ℚ))
  if player.facing = Facing.RIGHT then
    if player.xVel = 0 then
      [⟨PlayerTexture.PLAYER_IDLE, renderX, renderY, false⟩]
    else if player.xVel > 0 then
      [⟨PlayerTexture.PLAYER_WALKING, renderX, renderY, false⟩]
    else []
  else
    if player.xVel = 0 then
      [⟨PlayerTexture.PLAYER_IDLE, renderX, renderY, true⟩]
    else if player.xVel < 0 then
      [⟨PlayerTexture.PLAYER_WALKING, renderX, renderY, true⟩]
    else []

/-- The player part of `drawEverything` (main.cpp:195-227): the camera is computed
and `drawPlayer` is called with it (`drawWorld` and `drawHitBoxes` receive the
same camera). -/
def drawEverything (player : Player) (level : World) (camX camY : Int) :
    List RenderCall :=
  drawPlayer player (drawEverythingCam level camX camY).1
    (drawEverythingCam level camX camY).2

/-! ## Frame loop (main.cpp:128-183) -/

/-- The movement intent `moveDir[ UP | DOWN | LEFT | RIGHT ]` (main.cpp:147-150). -/
structure MoveDir where
  up : Bool
  down : Bool
  left : Bool
  right : Bool
  deriving DecidableEq

/-- What one iteration of the game loop reads from outside: whether an `SDL_QUIT`
event was polled, the keyboard state, and the elapsed time `deltaTime` measured
at main.cpp:156-157. -/
structure Frame where
  sdlQuit : Bool
  keyQ : Bool
  keyW : Bool
  keySpace : Bool
  keyS : Bool
  keyA : Bool
  keyD : Bool
  deltaTime : ℚ
  deriving DecidableEq

/-- The functions of `World` and `Player` that main.cpp calls and whose bodies are
outside main.cpp, taken as parameters. -/
structure Deps where
  loadWorld : String → World
  newPlayer : Int → Int → Player
  movePlayer : Player → MoveDir → ℚ → Player
  worldCollisionsWith : World → Player → Int → Int → Player

/-- The step clamp (main.cpp:160-161): the value of `deltaTime` that is passed to
`Player::movePlayer` at main.cpp:163. -/
def timeStep (deltaTime : ℚ) : ℚ :=
  if deltaTime > MAX_TIMESTEP then MAX_TIMESTEP else deltaTime

/-- The intent sampled from the keyboard (main.cpp:147-150). -/
def moveDirOf (f : Frame) : MoveDir :=
  ⟨f.keyW || f.keySpace, f.keyS, f.keyA, f.keyD⟩

/-- The grid-cell recomputation (main.cpp:164-165):
`setMapX( getXPos() / getTileSize() )`, `setMapY( getYPos() / getTileSize() )`.
The quotient of a `double` by an `int` is a `double`, converted to the `int`
argument of the setter. -/
def recomputeGridCell (world : World) (player : Player) : Player :=
  let player := { player with mapX := toInt (player.xPos / (world.tileSize : ℚ)) }
  { player with mapY := toInt (player.yPos / (world.tileSize : ℚ)) }

/-- The actor returned by the call `player->movePlayer( moveDir, deltaTime )` of
main.cpp:163: the intent is the one sampled from the keyboard, the step is the
clamped elapsed time. -/
def movedPlayer (deps : Deps) (player : Player) (f : Frame) : Player :=
  deps.movePlayer player (moveDirOf f) (timeStep f.deltaTime)

/-- The actor state between main.cpp:165 and main.cpp:168: after `movePlayer` and
the grid-cell recomputation, before `worldCollisionsWith`. -/
def moveAndLocate (deps : Deps) (world : World) (player : Player) (f : Frame) :
    Player :=
  recomputeGridCell world (movedPlayer deps player f)

/-- The update half of one iteration (main.cpp:156-168). -/
def frameUpdate (deps : Deps) (world : World) (player : Player) (f : Frame) :
    Player :=
  deps.worldCollisionsWith world (moveAndLocate deps world player f) 2 3

/-- The actor centre handed to `drawEverything` (main.cpp:176-177). -/
def actorCentre (player : Player) : Int × Int :=
  (toInt (player.xPos + ((Int.tdiv player.width 2 : Int) : ℚ)),
   toInt (player.yPos + ((Int.tdiv player.height 2 : Int) : ℚ)))

/-- The drawing half of one iteration (main.cpp:176-179). -/
def frameDraw (world : World) (player : Player) : List RenderCall :=
  drawEverything player world (actorCentre player).1 (actorCentre player).2

/-- The game loop `while( !quit )` (main.cpp:128-183) over the inputs of the
successive iterations.  Result: the final actor, the number of iterations run,
and whether the loop was left (`false`: the inputs ended with `quit` unset). -/
def gameLoop (deps : Deps) (world : World) : Player → List Frame → Player × Nat × Bool
  | player, [] => (player, 0, false)
  | player, f :: fs =>
    let quit := f.sdlQuit || f.keyQ
    let player := frameUpdate deps world player f
    if quit then (player, 1, true)
    else
      let r := gameLoop deps world player fs
      (r.1, r.2.1 + 1, r.2.2)

/-! ## Start-up (main.cpp:84-117, 355-443) -/

/-- Results of the external calls made by `init` and `loadMedia`; `true` means the
call reported success. -/
structure Startup where
  /-- Whether `SDL_Init( SDL_INIT_VIDEO ) >= 0`. -/
  sdlInit : Bool
  /-- Whether `SDL_CreateWindow( ... ) != NULL`. -/
  createWindow : Bool
  /-- Whether `SDL_CreateRenderer( ... ) != NULL`. -/
  createRenderer : Bool
  /-- Whether `IMG_Init( imgFlags ) & imgFlags` is non-zero. -/
  imgInit : Bool
  /-- Whether `tileTextures->loadFromFile( "Assets/Tiles.png" )` holds. -/
  tileTextures : Bool
  /-- Whether `playerSprites->loadFromFile( "Assets/Player.png" )` holds. -/
  playerSprites : Bool
  deriving DecidableEq

/-- The lines main.cpp writes to standard output. -/
inductive Msg where
  | usage
  | initFailed
  | loadFailed
  | sdlError
  | windowError
  | rendererError
  | imgError
  | tilesError
  | spritesError
  deriving DecidableEq

/-- The function `init` (main.cpp:355-403): the returned `success` flag and the
lines printed. -/
def init (s : Startup) : Bool × List Msg :=
  if !s.sdlInit then
    (false, [Msg.sdlError])
  else
    if !s.createWindow then
      (false, [Msg.windowError])
    else
      if !s.createRenderer then
        (false, [Msg.rendererError])
      else
        if !s.imgInit then
          (true, [Msg.imgError])
        else
          (true, [])

/-- The function `loadMedia` (main.cpp:405-443): both textures are loaded, each
failure clears `success`. -/
def loadMedia (s : Startup) : Bool × List Msg :=
  let r1 : Bool × List Msg :=
    if !s.tileTextures then (false, [Msg.tilesError]) else (true, [])
  let r2 : Bool × List Msg :=
    if !s.playerSprites then (false, r1.2 ++ [Msg.spritesError]) else r1
  r2

/-- The level path given to `new World( loadedLevel )` (main.cpp:107-113):
`argv[1]` when `argc == 2`, the built-in default otherwise. -/
def loadedLevel (argv : List String) : String :=
  match argv with
  | [_, level] => level
  | _ => "Levels/level4.txt"

/-- What a run of `main` does, as far as the start-up and exit are concerned. -/
structure Run where
  /-- The lines printed by main, init and loadMedia. -/
  output : List Msg
  /-- The path given to the `World` constructor, when it is reached. -/
  worldLoaded : Option String
  /-- The number of iterations of the game loop that were run. -/
  frames : Nat
  /-- The value given to `exit` or returned by `main`; `none` when the loop is
  still running at the end of the inputs. -/
  exitCode : Option Int
  deriving DecidableEq

/-- The function `main` (main.cpp:82-188); `argv` is the argument vector
(`argc = argv.length`), `s` the results of the start-up calls, `inputs` the
inputs of the successive iterations of the game loop. -/
def main (argv : List String) (s : Startup) (deps : Deps) (inputs : List Frame) :
    Run :=
  if argv.length > 2 then
    ⟨[Msg.usage], none, 0, some (-1)⟩
  else if !(init s).1 then
    ⟨(init s).2 ++ [Msg.initFailed], none, 0, some (-1)⟩
  else if !(loadMedia s).1 then
    ⟨(init s).2 ++ (loadMedia s).2 ++ [Msg.loadFailed], none, 0, some (-1)⟩
  else
    let newWorld := deps.loadWorld (loadedLevel argv)
    let player := deps.newPlayer newWorld.playerStartX newWorld.playerStartY
    let r := gameLoop deps newWorld player inputs
    ⟨(init s).2 ++ (loadMedia s).2, some (loadedLevel argv), r.2.1,
      if r.2.2 then some 0 else none⟩

/-! ## Sample inputs -/

/-- A world of 100 x 50 tiles of 32 pixels, larger than the viewport on both axes. -/
def wideWorld : World := ⟨100, 50, 32, 0, 0⟩

/-- A world of 10 x 5 tiles of 32 pixels, smaller than the viewport on both axes. -/
def smallWorld : World := ⟨10, 5, 32, 0, 0⟩

/-- An actor of 50 x 100 pixels at rest at `(x, y)`, facing right. -/
def playerAt (x y : ℚ) : Player := ⟨x, y, 0, 0, 50, 100, Facing.RIGHT, 0, 0⟩

/-- A world of 70000000 x 50 tiles of 32 pixels: its pixel width 2240000000
exceeds `INT_MAX`. -/
def hugeWorld : World := ⟨70000000, 50, 32, 0, 0⟩

/-- Stand-ins for the external functions: a fixed world, an actor that moves by
`velocity * step` on each axis and a world without obstacles. -/
def stubDeps : Deps :=
  ⟨fun _ => wideWorld, fun x y => playerAt x y,
   fun p _ dt => { p with xPos := p.xPos + p.xVel * dt, yPos := p.yPos + p.yVel * dt },
   fun _ p _ _ => p⟩

/-- A start-up in which every call succeeds. -/
def allOk : Startup := ⟨true, true, true, true, true, true⟩

/-- An iteration in which the Q key is down. -/
def quitFrame : Frame := ⟨false, true, false, false, false, false, false, 1 / 100⟩

/-- An iteration without quit request in which one second elapsed (a frame
hitch). -/
def slowFrame : Frame := ⟨false, false, false, false, false, false, true, 1⟩

/-- An `int` operation whose mathematical value fits in `int` gives that value. -/
theorem wrapInt_eq_self (n : Int) (h1 : INT_MIN ≤ n) (h2 : n ≤ INT_MAX) :
    wrapInt n = n := by
  unfold wrapInt
  unfold INT_MIN at h1
  unfold INT_MAX at h2
  omega

/-- The result of an `int` operation is an `int`. -/
theorem wrapInt_range (n : Int) : INT_MIN ≤ wrapInt n ∧ wrapInt n ≤ INT_MAX := by
  unfold wrapInt INT_MIN INT_MAX
  omega

/-- Halving toward zero stays within one of the exact half. -/
theorem tdiv_two_bounds (n : Int) :
    n - 1 ≤ 2 * Int.tdiv n 2 ∧ 2 * Int.tdiv n 2 ≤ n + 1 := by
  rcases le_or_lt 0 n with h | h
  · rw [Int.tdiv_eq_ediv h (by decide)]
    omega
  · have hn : 0 ≤ -n := by omega
    have hneg : Int.tdiv n 2 = -((-n) / 2) := by
      rw [← Int.tdiv_eq_ediv hn (by decide), Int.neg_tdiv, neg_neg]
    rw [hneg]
    omega

/-- A world of positive pixel extent with positive tile size is at least one tile
wide. -/
theorem tile_le_extent (tiles tileSize : Int) (hts : 0 < tileSize)
    (h : 0 < tiles * tileSize) : tileSize ≤ tiles * tileSize := by
  have htiles : 1 ≤ tiles := by
    by_contra hc
    have h0 : tiles ≤ 0 := by omega
    have := mul_nonpos_of_nonpos_of_nonneg h0 hts.le
    omega
  nlinarith

/-- The horizontal camera coordinate, unfolded. -/
theorem drawEverythingCam_fst (level : World) (camX camY : Int) :
    (drawEverythingCam level camX camY).1 =
      if 1600 ≥ wrapInt (level.width * level.tileSize) then
        wrapInt (Int.tdiv (wrapInt (level.width * level.tileSize)) 2 - 800)
      else if wrapInt (camX - 800) < wrapInt (-level.tileSize) then
        wrapInt (-level.tileSize)
      else if wrapInt (wrapInt (wrapInt (camX - 800) + 1600) - level.tileSize) >
          wrapInt (level.width * level.tileSize) then
        wrapInt (wrapInt (wrapInt (level.width * level.tileSize) - 1600) +
          level.tileSize)
      else wrapInt (camX - 800) := by
  have h : Int.tdiv 1600 2 = 800 := by decide
  simp only [drawEverythingCam, SCREEN_WIDTH, h]

/-- The vertical camera coordinate, unfolded. -/
theorem drawEverythingCam_snd (level : World) (camX camY : Int) :
    (drawEverythingCam level camX camY).2 =
      if 900 ≥ wrapInt (level.height * level.tileSize) then
        wrapInt (Int.tdiv (wrapInt (level.height * level.tileSize)) 2 - 450)
      else if wrapInt (camY - 450) < wrapInt (-level.tileSize) then
        wrapInt (-level.tileSize)
      else if wrapInt (wrapInt (wrapInt (camY - 450) + 900) - level.tileSize) >
          wrapInt (level.height * level.tileSize) then
        wrapInt (wrapInt (wrapInt (level.height * level.tileSize) - 900) +
          level.tileSize)
      else wrapInt (camY - 450) := by
  have h : Int.tdiv 900 2 = 450 := by decide
  simp only [drawEverythingCam, SCREEN_HEIGHT, h]

/-- One axis of the camera computation (viewport `view = 2 * half`, world extent
`extent`, tile size `tileSize`, actor centre `c`), when no operation overflows:
the wrapped computation is the plain clamp. -/
theorem clamp_axis_exact (half view extent tileSize c : Int)
    (hview : view = 2 * half) (hhalf : 0 < half) (hhalf2 : half ≤ 800)
    (hbig : view < extent) (hfit : extent ≤ INT_MAX)
    (hupper : extent - view + tileSize ≤ INT_MAX)
    (htile : 0 < tileSize → tileSize ≤ extent)
    (hlo : INT_MIN ≤ c - half) (hmid : c - half ≤ INT_MAX)
    (hhi : c - half + view - tileSize ≤ INT_MAX)
    (htsLo : INT_MIN < tileSize) (htsHi : tileSize ≤ INT_MAX) :
    (if view ≥ wrapInt extent then wrapInt (Int.tdiv (wrapInt extent) 2 - half)
      else if wrapInt (c - half) < wrapInt (-tileSize) then wrapInt (-tileSize)
      else if wrapInt (wrapInt (wrapInt (c - half) + view) - tileSize) >
          wrapInt extent then
        wrapInt (wrapInt (wrapInt extent - view) + tileSize)
      else wrapInt (c - half)) =
    (if c - half < -tileSize then -tileSize
      else if c - half + view - tileSize > extent then extent - view + tileSize
      else c - half) := by
  have hext : wrapInt extent = extent :=
    wrapInt_eq_self extent (by unfold INT_MIN; omega) hfit
  rw [hext, if_neg (by omega)]
  unfold INT_MIN at hlo htsLo
  unfold INT_MAX at hfit hupper hmid hhi htsHi
  simp only [wrapInt]
  split_ifs <;> omega

/-- The horizontal camera coordinate of a world wider than the viewport, when no
operation overflows. -/
theorem camX_exact (level : World) (camX camY : Int)
    (hbig : 1600 < level.width * level.tileSize)
    (hfit : level.width * level.tileSize ≤ INT_MAX)
    (hupper : level.width * level.tileSize - 1600 + level.tileSize ≤ INT_MAX)
    (hlo : INT_MIN ≤ camX - 800) (hmid : camX - 800 ≤ INT_MAX)
    (hhi : camX - 800 + 1600 - level.tileSize ≤ INT_MAX)
    (htsLo : INT_MIN < level.tileSize) :
    (drawEverythingCam level camX camY).1 =
      if camX - 800 < -level.tileSize then -level.tileSize
      else if camX - 800 + 1600 - level.tileSize > level.width * level.tileSize then
        level.width * level.tileSize - 1600 + level.tileSize
      else camX - 800 := by
  have htile : 0 < level.tileSize → level.tileSize ≤ level.width * level.tileSize :=
    fun h => tile_le_extent _ _ h (by omega)
  have htsHi : level.tileSize ≤ INT_MAX := by
    rcases le_or_lt level.tileSize 0 with h | h
    · unfold INT_MAX; omega
    · have := htile h
      omega
  rw [drawEverythingCam_fst]
  exact clamp_axis_exact 800 1600 _ _ _ (by decide) (by decide) (by decide) hbig hfit
    hupper htile hlo hmid hhi htsLo htsHi

/-- The vertical camera coordinate of a world taller than the viewport, when no
operation overflows. -/
theorem camY_exact (level : World) (camX camY : Int)
    (hbig : 900 < level.height * level.tileSize)
    (hfit : level.height * level.tileSize ≤ INT_MAX)
    (hupper : level.height * level.tileSize - 900 + level.tileSize ≤ INT_MAX)
    (hlo : INT_MIN ≤ camY - 450) (hmid : camY - 450 ≤ INT_MAX)
    (hhi : camY - 450 + 900 - level.tileSize ≤ INT_MAX)
    (htsLo : INT_MIN < level.tileSize) :
    (drawEverythingCam level camX camY).2 =
      if camY - 450 < -level.tileSize then -level.tileSize
      else if camY - 450 + 900 - level.tileSize > level.height * level.tileSize then
        level.height * level.tileSize - 900 + level.tileSize
      else camY - 450 := by
  have htile : 0 < level.tileSize → level.tileSize ≤ level.height * level.tileSize :=
    fun h => tile_le_extent _ _ h (by omega)
  have htsHi : level.tileSize ≤ INT_MAX := by
    rcases le_or_lt level.tileSize 0 with h | h
    · unfold INT_MAX; omega
    · have := htile h
      omega
  rw [drawEverythingCam_snd]
  exact clamp_axis_exact 450 900 _ _ _ (by decide) (by decide) (by decide) hbig hfit
    hupper htile hlo hmid hhi htsLo htsHi

/-- Once an iteration with a quit request is among the inputs, the game loop is
left. -/
theorem gameLoop_quits (deps : Deps) (world : World) (inputs : List Frame) :
    ∀ player : Player, (∃ f ∈ inputs, (f.sdlQuit || f.keyQ) = true) →
      (gameLoop deps world player inputs).2.2 = true := by
  induction inputs with
  | nil => intro player h; simp at h
  | cons f fs ih =>
    intro player h
    by_cases hq : (f.sdlQuit || f.keyQ) = true
    · simp [gameLoop, hq]
    · have hrest : ∃ g ∈ fs, (g.sdlQuit || g.keyQ) = true := by
        obtain ⟨g, hg, hgq⟩ := h
        rcases List.mem_cons.mp hg with rfl | hmem
        · exact absurd hgq hq
        · exact ⟨g, hmem, hgq⟩
      simp only [gameLoop, hq]
      exact ih _ hrest

/-- The failures that `init` and `loadMedia` report are fatal: when SDL, the
window, the renderer or one of the two textures fails, `main` exits with code
`-1` before any world is loaded or any iteration is run. -/
theorem main_reported_failure_fatal (argv : List String) (s : Startup) (deps : Deps)
    (inputs : List Frame)
    (h : s.sdlInit = false ∨ s.createWindow = false ∨ s.createRenderer = false ∨
      s.tileTextures = false ∨ s.playerSprites = false) :
    (main argv s deps inputs).exitCode = some (-1) ∧
    (main argv s deps inputs).worldLoaded = none ∧
    (main argv s deps inputs).frames = 0 := by
  have hfail : (init s).1 = false ∨ (loadMedia s).1 = false := by
    obtain ⟨a, b, c, d, e, g⟩ := s
    simp only at h
    simp only [init, loadMedia]
    cases a <;> cases b <;> cases c <;> cases d <;> cases e <;> cases g <;>
      simp at h ⊢
  unfold main
  split_ifs with h1 h2 h3
  · exact ⟨rfl, rfl, rfl⟩
  · exact ⟨rfl, rfl, rfl⟩
  · exact ⟨rfl, rfl, rfl⟩
  · rcases hfail with hf | hf
    · simp [hf] at h2
    · simp [hf] at h3

/-- When every start-up call succeeds, at most one argument is given and some
iteration carries a quit request, `main` returns `0`. -/
theorem main_normal_quit (argv : List String) (deps : Deps) (inputs : List Frame)
    (hargs : argv.length ≤ 2)
    (hquit : ∃ f ∈ inputs, (f.sdlQuit || f.keyQ) = true) :
    (main argv allOk deps inputs).exitCode = some 0 := by
  have hlen : ¬ argv.length > 2 := by omega
  simp [main, init, loadMedia, allOk, hlen, gameLoop_quits deps _ inputs _ hquit]

theorem tdiv_screen_width : Int.tdiv SCREEN_WIDTH 2 = 800 := by decide

theorem tdiv_screen_height : Int.tdiv SCREEN_HEIGHT 2 = 450 := by decide

/-! ## Frame loop -/

/-- C1 (step clamp): in every iteration of the frame loop the actor is moved by
`movePlayer` with the clamped elapsed time as step: whenever the measured elapsed
time is at least `MAX_TIMESTEP` the step passed is exactly `MAX_TIMESTEP`, and for
every measured elapsed time the step passed is at most `MAX_TIMESTEP`.  The
iteration goes on from the actor so moved, and the loop from that iteration. -/
theorem step_clamp (deps : Deps) (world : World) (player : Player) (f : Frame) :
    movedPlayer deps player f =
      deps.movePlayer player (moveDirOf f) (timeStep f.deltaTime) ∧
    (MAX_TIMESTEP ≤ f.deltaTime →
      movedPlayer deps player f = deps.movePlayer player (moveDirOf f) MAX_TIMESTEP) ∧
    (MAX_TIMESTEP ≤ f.deltaTime → timeStep f.deltaTime = MAX_TIMESTEP) ∧
    timeStep f.deltaTime ≤ MAX_TIMESTEP ∧
    frameUpdate deps world player f =
      deps.worldCollisionsWith world
        (recomputeGridCell world (movedPlayer deps player f)) 2 3 ∧
    (∀ fs : List Frame, (gameLoop deps world player (f :: fs)).1 =
      if (f.sdlQuit || f.keyQ) = true then frameUpdate deps world player f
      else (gameLoop deps world (frameUpdate deps world player f) fs).1) := by
  have hclamp : MAX_TIMESTEP ≤ f.deltaTime → timeStep f.deltaTime = MAX_TIMESTEP := by
    intro h
    unfold timeStep
    split_ifs with hgt
    · rfl
    · exact le_antisymm (not_lt.mp hgt) h
  have hle : timeStep f.deltaTime ≤ MAX_TIMESTEP := by
    unfold timeStep
    split_ifs with hgt
    · exact le_refl _
    · exact not_lt.mp hgt
  refine ⟨rfl, fun h => ?_, hclamp, hle, rfl, fun fs => ?_⟩
  · rw [movedPlayer, hclamp h]
  · by_cases hq : (f.sdlQuit || f.keyQ) = true
    · simp [gameLoop, hq]
    · simp [gameLoop, hq]

/-- Witness of C1: in an iteration measuring one second the actor is moved with
the step `MAX_TIMESTEP`. -/
theorem step_clamp_witness :
    MAX_TIMESTEP ≤ slowFrame.deltaTime ∧
    movedPlayer stubDeps (playerAt 0 0) slowFrame =
      stubDeps.movePlayer (playerAt 0 0) (moveDirOf slowFrame) MAX_TIMESTEP ∧
    timeStep slowFrame.deltaTime = MAX_TIMESTEP :=
  ⟨by norm_num [MAX_TIMESTEP, slowFrame],
   (step_clamp stubDeps wideWorld (playerAt 0 0) slowFrame).2.1
     (by norm_num [MAX_TIMESTEP, slowFrame]),
   (step_clamp stubDeps wideWorld (playerAt 0 0) slowFrame).2.2.1
     (by norm_num [MAX_TIMESTEP, slowFrame])⟩

/-- C7, evaluated at the failing start-up: SDL, the window, the renderer and both
textures succeed and only `IMG_Init` fails.  `init` prints the SDL_image line but
returns `true`, and `main` goes on to load the default level, runs the game loop
and returns `0` at the quit request. -/
theorem main_img_init_failure_not_fatal (deps : Deps) :
    init ⟨true, true, true, false, true, true⟩ = (true, [Msg.imgError]) ∧
    main ["./platformer"] ⟨true, true, true, false, true, true⟩ deps [quitFrame] =
      ⟨[Msg.imgError], some "Levels/level4.txt", 1, some 0⟩ := by
  constructor
  · rfl
  · simp [main, init, loadMedia, loadedLevel, gameLoop, quitFrame]

/-- C10 (sprite selection): `drawPlayer` renders nothing when the velocity
contradicts the facing (facing right with `xVel < 0`, facing left with
`xVel > 0`); otherwise it renders exactly one animation, idle when `xVel == 0`
and walking otherwise, flipped horizontally exactly when the facing is not
`RIGHT`. -/
theorem drawPlayer_sprite_selection (player : Player) (camX camY : Int) :
    drawPlayer player camX camY =
      if (player.facing = Facing.RIGHT ∧ player.xVel < 0) ∨
          (player.facing = Facing.LEFT ∧ player.xVel > 0) then []
      else
        [⟨if player.xVel = 0 then PlayerTexture.PLAYER_IDLE
            else PlayerTexture.PLAYER_WALKING,
          toInt (player.xPos - (camX : ℚ)), toInt (player.yPos - (camY : ℚ)),
          decide (player.facing ≠ Facing.RIGHT)⟩] := by
  unfold drawPlayer
  rcases lt_trichotomy player.xVel 0 with hv | hv | hv
  · have h1 : player.xVel ≠ 0 := ne_of_lt hv
    have h2 : ¬ player.xVel > 0 := not_lt.mpr hv.le
    cases hf : player.facing <;> simp [hv, h1, h2]
  · cases hf : player.facing <;> simp [hv]
  · have h1 : player.xVel ≠ 0 := ne_of_gt hv
    have h2 : ¬ player.xVel < 0 := not_lt.mpr hv.le
    cases hf : player.facing <;> simp [hv, h1, h2]

/-! ## Camera -/

/-- C2, as the claim states it, fails: on the 100 x 50 world (tile size 32, larger
than the viewport on both axes) the actor centre `(INT_MAX, INT_MAX)` gives the
camera `(2147482847, 2147483197)`, above the upper bounds `1632` and `732`:
`camX + SCREEN_WIDTH` overflows and no clamp fires. -/
theorem camera_containment_counterexample :
    0 < wideWorld.tileSize ∧
    SCREEN_WIDTH < wideWorld.width * wideWorld.tileSize ∧
    SCREEN_HEIGHT < wideWorld.height * wideWorld.tileSize ∧
    drawEverythingCam wideWorld INT_MAX INT_MAX = (2147482847, 2147483197) ∧
    ¬ ((drawEverythingCam wideWorld INT_MAX INT_MAX).1 ≤
        wideWorld.width * wideWorld.tileSize - SCREEN_WIDTH + wideWorld.tileSize) ∧
    ¬ ((drawEverythingCam wideWorld INT_MAX INT_MAX).2 ≤
        wideWorld.height * wideWorld.tileSize - SCREEN_HEIGHT + wideWorld.tileSize) := by
  decide

/-- C2, amended (camera containment): for a world with positive tile size, on each
axis on which the pixel extent of the world exceeds the viewport, if the extent
and the bound `worldExtent - viewportExtent + tileSize` are at most `INT_MAX` and
the actor centre `c` satisfies `INT_MIN ≤ c - viewportExtent / 2` and
`c + viewportExtent / 2 ≤ INT_MAX`, then the camera coordinate computed by
`drawEverything` lies in `[-tileSize, worldExtent - viewportExtent + tileSize]`. -/
theorem camera_containment (level : World) (camX camY : Int)
    (hts : 0 < level.tileSize) :
    (SCREEN_WIDTH < level.width * level.tileSize →
      level.width * level.tileSize ≤ INT_MAX →
      level.width * level.tileSize - SCREEN_WIDTH + level.tileSize ≤ INT_MAX →
      INT_MIN ≤ camX - Int.tdiv SCREEN_WIDTH 2 →
      camX + Int.tdiv SCREEN_WIDTH 2 ≤ INT_MAX →
      -level.tileSize ≤ (drawEverythingCam level camX camY).1 ∧
      (drawEverythingCam level camX camY).1 ≤
        level.width * level.tileSize - SCREEN_WIDTH + level.tileSize) ∧
    (SCREEN_HEIGHT < level.height * level.tileSize →
      level.height * level.tileSize ≤ INT_MAX →
      level.height * level.tileSize - SCREEN_HEIGHT + level.tileSize ≤ INT_MAX →
      INT_MIN ≤ camY - Int.tdiv SCREEN_HEIGHT 2 →
      camY + Int.tdiv SCREEN_HEIGHT 2 ≤ INT_MAX →
      -level.tileSize ≤ (drawEverythingCam level camX camY).2 ∧
      (drawEverythingCam level camX camY).2 ≤
        level.height * level.tileSize - SCREEN_HEIGHT + level.tileSize) := by
  rw [tdiv_screen_width, tdiv_screen_height]
  simp only [SCREEN_WIDTH, SCREEN_HEIGHT]
  constructor
  · intro hbig hfit hupper hlo hhi
    rw [camX_exact level camX camY hbig hfit hupper hlo (by omega) (by omega)
      (by unfold INT_MIN; omega)]
    split_ifs <;> omega
  · intro hbig hfit hupper hlo hhi
    rw [camY_exact level camX camY hbig hfit hupper hlo (by omega) (by omega)
      (by unfold INT_MIN; omega)]
    split_ifs <;> omega

/-- Witness of the amended C2 on the 100 x 50 world with the actor centre at
`(5000, -7)`: the camera is `(1632, -32)`. -/
theorem camera_containment_witness :
    (0 < wideWorld.tileSize ∧
      SCREEN_WIDTH < wideWorld.width * wideWorld.tileSize ∧
      wideWorld.width * wideWorld.tileSize ≤ INT_MAX ∧
      wideWorld.width * wideWorld.tileSize - SCREEN_WIDTH + wideWorld.tileSize ≤ INT_MAX ∧
      INT_MIN ≤ (5000 : Int) - Int.tdiv SCREEN_WIDTH 2 ∧
      (5000 : Int) + Int.tdiv SCREEN_WIDTH 2 ≤ INT_MAX ∧
      SCREEN_HEIGHT < wideWorld.height * wideWorld.tileSize ∧
      wideWorld.height * wideWorld.tileSize ≤ INT_MAX ∧
      wideWorld.height * wideWorld.tileSize - SCREEN_HEIGHT + wideWorld.tileSize ≤
        INT_MAX ∧
      INT_MIN ≤ (-7 : Int) - Int.tdiv SCREEN_HEIGHT 2 ∧
      (-7 : Int) + Int.tdiv SCREEN_HEIGHT 2 ≤ INT_MAX) ∧
    (-wideWorld.tileSize ≤ (drawEverythingCam wideWorld 5000 (-7)).1 ∧
      (drawEverythingCam wideWorld 5000 (-7)).1 ≤
        wideWorld.width * wideWorld.tileSize - SCREEN_WIDTH + wideWorld.tileSize) ∧
    (-wideWorld.tileSize ≤ (drawEverythingCam wideWorld 5000 (-7)).2 ∧
      (drawEverythingCam wideWorld 5000 (-7)).2 ≤
        wideWorld.height * wideWorld.tileSize - SCREEN_HEIGHT + wideWorld.tileSize) :=
  ⟨by decide,
   (camera_containment wideWorld 5000 (-7) (by decide)).1 (by decide) (by decide)
     (by decide) (by decide) (by decide),
   (camera_containment wideWorld 5000 (-7) (by decide)).2 (by decide) (by decide)
     (by decide) (by decide) (by decide)⟩

/-- C3, as the claim states it, fails: the world of 70000000 x 50 tiles of 32
pixels is wider than the viewport and the actor centre `x = 1000` has
`1000 - 800 = 200` inside `[-32, 2239998432]`, but `getWidth() * tileSize`
overflows to `-2054967296`, the small-world branch is taken and the camera x is
`-1027484448`, not `200`. -/
theorem camera_default_centring_counterexample :
    SCREEN_WIDTH < hugeWorld.width * hugeWorld.tileSize ∧
    -hugeWorld.tileSize ≤ (1000 : Int) - Int.tdiv SCREEN_WIDTH 2 ∧
    (1000 : Int) - Int.tdiv SCREEN_WIDTH 2 ≤
      hugeWorld.width * hugeWorld.tileSize - SCREEN_WIDTH + hugeWorld.tileSize ∧
    worldWidthPx hugeWorld = -2054967296 ∧
    (drawEverythingCam hugeWorld 1000 1000).1 = -1027484448 ∧
    (drawEverythingCam hugeWorld 1000 1000).1 ≠ 1000 - Int.tdiv SCREEN_WIDTH 2 := by
  decide

/-- C3, amended (default centring): on each axis on which the world is larger than
the viewport and on which the pixel extent of the world and the bound
`worldExtent - viewportExtent + tileSize` are at most `INT_MAX`, if
`c - viewportExtent / 2` lies in
`[-tileSize, worldExtent - viewportExtent + tileSize]` then the camera coordinate
is `c - viewportExtent / 2` (integer division; 1600 for x, 900 for y). -/
theorem camera_default_centring (level : World) (camX camY : Int) :
    (SCREEN_WIDTH < level.width * level.tileSize →
      level.width * level.tileSize ≤ INT_MAX →
      level.width * level.tileSize - SCREEN_WIDTH + level.tileSize ≤ INT_MAX →
      -level.tileSize ≤ camX - Int.tdiv SCREEN_WIDTH 2 →
      camX - Int.tdiv SCREEN_WIDTH 2 ≤
        level.width * level.tileSize - SCREEN_WIDTH + level.tileSize →
      (drawEverythingCam level camX camY).1 = camX - Int.tdiv SCREEN_WIDTH 2) ∧
    (SCREEN_HEIGHT < level.height * level.tileSize →
      level.height * level.tileSize ≤ INT_MAX →
      level.height * level.tileSize - SCREEN_HEIGHT + level.tileSize ≤ INT_MAX →
      -level.tileSize ≤ camY - Int.tdiv SCREEN_HEIGHT 2 →
      camY - Int.tdiv SCREEN_HEIGHT 2 ≤
        level.height * level.tileSize - SCREEN_HEIGHT + level.tileSize →
      (drawEverythingCam level camX camY).2 = camY - Int.tdiv SCREEN_HEIGHT 2) := by
  rw [tdiv_screen_width, tdiv_screen_height]
  simp only [SCREEN_WIDTH, SCREEN_HEIGHT]
  constructor
  · intro hbig hfit hupper h1 h2
    have htile : 0 < level.tileSize → level.tileSize ≤ level.width * level.tileSize :=
      fun h => tile_le_extent _ _ h (by omega)
    have hmax : INT_MAX = 2147483647 := rfl
    have hmin : INT_MIN = -2147483648 := rfl
    rw [camX_exact level camX camY hbig hfit hupper (by omega) (by omega) (by omega)
      (by omega)]
    split_ifs <;> omega
  · intro hbig hfit hupper h1 h2
    have htile : 0 < level.tileSize → level.tileSize ≤ level.height * level.tileSize :=
      fun h => tile_le_extent _ _ h (by omega)
    have hmax : INT_MAX = 2147483647 := rfl
    have hmin : INT_MIN = -2147483648 := rfl
    rw [camY_exact level camX camY hbig hfit hupper (by omega) (by omega) (by omega)
      (by omega)]
    split_ifs <;> omega

/-- Witness of the amended C3 on the 100 x 50 world with the actor centre at
`(1000, 1000)`: the camera is `(200, 550)`. -/
theorem camera_default_centring_witness :
    (SCREEN_WIDTH < wideWorld.width * wideWorld.tileSize ∧
      wideWorld.width * wideWorld.tileSize ≤ INT_MAX ∧
      wideWorld.width * wideWorld.tileSize - SCREEN_WIDTH + wideWorld.tileSize ≤ INT_MAX ∧
      -wideWorld.tileSize ≤ (1000 : Int) - Int.tdiv SCREEN_WIDTH 2 ∧
      (1000 : Int) - Int.tdiv SCREEN_WIDTH 2 ≤
        wideWorld.width * wideWorld.tileSize - SCREEN_WIDTH + wideWorld.tileSize) ∧
    (SCREEN_HEIGHT < wideWorld.height * wideWorld.tileSize ∧
      wideWorld.height * wideWorld.tileSize ≤ INT_MAX ∧
      wideWorld.height * wideWorld.tileSize - SCREEN_HEIGHT + wideWorld.tileSize ≤
        INT_MAX ∧
      -wideWorld.tileSize ≤ (1000 : Int) - Int.tdiv SCREEN_HEIGHT 2 ∧
      (1000 : Int) - Int.tdiv SCREEN_HEIGHT 2 ≤
        wideWorld.height * wideWorld.tileSize - SCREEN_HEIGHT + wideWorld.tileSize) ∧
    (drawEverythingCam wideWorld 1000 1000).1 = 1000 - Int.tdiv SCREEN_WIDTH 2 ∧
    (drawEverythingCam wideWorld 1000 1000).2 = 1000 - Int.tdiv SCREEN_HEIGHT 2 :=
  ⟨by decide, by decide,
   (camera_default_centring wideWorld 1000 1000).1 (by decide) (by decide) (by decide)
     (by decide) (by decide),
   (camera_default_centring wideWorld 1000 1000).2 (by decide) (by decide) (by decide)
     (by decide) (by decide)⟩

/-- C4, as the claim states it, fails on the 100 x 50 world (tile size 32): for
the actor centre `x = INT_MIN`, `c - 800` is below `-32` but `camX -= 800`
overflows and the camera x is `2147482848`, not `-32`; for the actor centre
`y = INT_MAX`, `c - 450` is above `732` but `camY + SCREEN_HEIGHT` overflows and
the camera y is `2147483197`, not `732`. -/
theorem camera_clamp_saturation_counterexample :
    0 < wideWorld.tileSize ∧
    SCREEN_WIDTH < wideWorld.width * wideWorld.tileSize ∧
    INT_MIN - Int.tdiv SCREEN_WIDTH 2 < -wideWorld.tileSize ∧
    (drawEverythingCam wideWorld INT_MIN INT_MAX).1 = 2147482848 ∧
    (drawEverythingCam wideWorld INT_MIN INT_MAX).1 ≠ -wideWorld.tileSize ∧
    SCREEN_HEIGHT < wideWorld.height * wideWorld.tileSize ∧
    wideWorld.height * wideWorld.tileSize - SCREEN_HEIGHT + wideWorld.tileSize <
      INT_MAX - Int.tdiv SCREEN_HEIGHT 2 ∧
    (drawEverythingCam wideWorld INT_MIN INT_MAX).2 = 2147483197 ∧
    (drawEverythingCam wideWorld INT_MIN INT_MAX).2 ≠
      wideWorld.height * wideWorld.tileSize - SCREEN_HEIGHT + wideWorld.tileSize := by
  decide

/-- C4, amended (clamp saturation): for a world with positive tile size, on each
axis on which the world is larger than the viewport, if the pixel extent of the
world and the bound `worldExtent - viewportExtent + tileSize` are at most
`INT_MAX` and the actor centre `c` satisfies `INT_MIN ≤ c - viewportExtent / 2`
and `c + viewportExtent / 2 ≤ INT_MAX`, then the camera coordinate is exactly
`-tileSize` when `c - viewportExtent / 2` is below `-tileSize`, and exactly
`worldExtent - viewportExtent + tileSize` when `c - viewportExtent / 2` is above
that bound. -/
theorem camera_clamp_saturation (level : World) (camX camY : Int)
    (hts : 0 < level.tileSize) :
    (SCREEN_WIDTH < level.width * level.tileSize →
      level.width * level.tileSize ≤ INT_MAX →
      level.width * level.tileSize - SCREEN_WIDTH + level.tileSize ≤ INT_MAX →
      INT_MIN ≤ camX - Int.tdiv SCREEN_WIDTH 2 →
      camX + Int.tdiv SCREEN_WIDTH 2 ≤ INT_MAX →
      (camX - Int.tdiv SCREEN_WIDTH 2 < -level.tileSize →
        (drawEverythingCam level camX camY).1 = -level.tileSize) ∧
      (level.width * level.tileSize - SCREEN_WIDTH + level.tileSize <
          camX - Int.tdiv SCREEN_WIDTH 2 →
        (drawEverythingCam level camX camY).1 =
          level.width * level.tileSize - SCREEN_WIDTH + level.tileSize)) ∧
    (SCREEN_HEIGHT < level.height * level.tileSize →
      level.height * level.tileSize ≤ INT_MAX →
      level.height * level.tileSize - SCREEN_HEIGHT + level.tileSize ≤ INT_MAX →
      INT_MIN ≤ camY - Int.tdiv SCREEN_HEIGHT 2 →
      camY + Int.tdiv SCREEN_HEIGHT 2 ≤ INT_MAX →
      (camY - Int.tdiv SCREEN_HEIGHT 2 < -level.tileSize →
        (drawEverythingCam level camX camY).2 = -level.tileSize) ∧
      (level.height * level.tileSize - SCREEN_HEIGHT + level.tileSize <
          camY - Int.tdiv SCREEN_HEIGHT 2 →
        (drawEverythingCam level camX camY).2 =
          level.height * level.tileSize - SCREEN_HEIGHT + level.tileSize)) := by
  rw [tdiv_screen_width, tdiv_screen_height]
  simp only [SCREEN_WIDTH, SCREEN_HEIGHT]
  constructor
  · intro hbig hfit hupper hlo hhi
    rw [camX_exact level camX camY hbig hfit hupper hlo (by omega) (by omega)
      (by unfold INT_MIN; omega)]
    constructor <;> intro h <;> split_ifs <;> omega
  · intro hbig hfit hupper hlo hhi
    rw [camY_exact level camX camY hbig hfit hupper hlo (by omega) (by omega)
      (by unfold INT_MIN; omega)]
    constructor <;> intro h <;> split_ifs <;> omega

/-- Witness of the amended C4 on the 100 x 50 world: the actor centre `(0, 5000)`
saturates the lower bound on x (camera x = -32) and the upper bound on y
(camera y = 732). -/
theorem camera_clamp_saturation_witness :
    (0 < wideWorld.tileSize ∧
      SCREEN_WIDTH < wideWorld.width * wideWorld.tileSize ∧
      wideWorld.width * wideWorld.tileSize ≤ INT_MAX ∧
      wideWorld.width * wideWorld.tileSize - SCREEN_WIDTH + wideWorld.tileSize ≤ INT_MAX ∧
      INT_MIN ≤ (0 : Int) - Int.tdiv SCREEN_WIDTH 2 ∧
      (0 : Int) + Int.tdiv SCREEN_WIDTH 2 ≤ INT_MAX ∧
      (0 : Int) - Int.tdiv SCREEN_WIDTH 2 < -wideWorld.tileSize ∧
      SCREEN_HEIGHT < wideWorld.height * wideWorld.tileSize ∧
      wideWorld.height * wideWorld.tileSize ≤ INT_MAX ∧
      wideWorld.height * wideWorld.tileSize - SCREEN_HEIGHT + wideWorld.tileSize ≤
        INT_MAX ∧
      INT_MIN ≤ (5000 : Int) - Int.tdiv SCREEN_HEIGHT 2 ∧
      (5000 : Int) + Int.tdiv SCREEN_HEIGHT 2 ≤ INT_MAX ∧
      wideWorld.height * wideWorld.tileSize - SCREEN_HEIGHT + wideWorld.tileSize <
        (5000 : Int) - Int.tdiv SCREEN_HEIGHT 2) ∧
    (drawEverythingCam wideWorld 0 5000).1 = -wideWorld.tileSize ∧
    (drawEverythingCam wideWorld 0 5000).2 =
      wideWorld.height * wideWorld.tileSize - SCREEN_HEIGHT + wideWorld.tileSize :=
  ⟨by decide,
   ((camera_clamp_saturation wideWorld 0 5000 (by decide)).1 (by decide) (by decide)
     (by decide) (by decide) (by decide)).1 (by decide),
   ((camera_clamp_saturation wideWorld 0 5000 (by decide)).2 (by decide) (by decide)
     (by decide) (by decide) (by decide)).2 (by decide)⟩

/-- C5 (small-world centring): on each axis on which the pixel extent of the world,
as the code computes it, is smaller than the viewport, the camera coordinate is
`worldExtent / 2 - viewportExtent / 2` for every actor centre: it is the same for
any two actor centres, and the centre of the viewport falls on the centre of the
world.  The computed extent is `width * tileSize` (resp. `height * tileSize`)
whenever that product is not below `INT_MIN`, which gives the last two parts. -/
theorem camera_small_world (level : World) (camX camY : Int) :
    (worldWidthPx level < SCREEN_WIDTH →
      (drawEverythingCam level camX camY).1 =
        Int.tdiv (worldWidthPx level) 2 - Int.tdiv SCREEN_WIDTH 2 ∧
      (∀ otherX otherY : Int, (drawEverythingCam level otherX otherY).1 =
        (drawEverythingCam level camX camY).1) ∧
      (drawEverythingCam level camX camY).1 + Int.tdiv SCREEN_WIDTH 2 =
        Int.tdiv (worldWidthPx level) 2) ∧
    (worldHeightPx level < SCREEN_HEIGHT →
      (drawEverythingCam level camX camY).2 =
        Int.tdiv (worldHeightPx level) 2 - Int.tdiv SCREEN_HEIGHT 2 ∧
      (∀ otherX otherY : Int, (drawEverythingCam level otherX otherY).2 =
        (drawEverythingCam level camX camY).2) ∧
      (drawEverythingCam level camX camY).2 + Int.tdiv SCREEN_HEIGHT 2 =
        Int.tdiv (worldHeightPx level) 2) ∧
    (INT_MIN ≤ level.width * level.tileSize →
      level.width * level.tileSize < SCREEN_WIDTH →
      (drawEverythingCam level camX camY).1 =
        Int.tdiv (level.width * level.tileSize) 2 - Int.tdiv SCREEN_WIDTH 2 ∧
      (∀ otherX otherY : Int, (drawEverythingCam level otherX otherY).1 =
        (drawEverythingCam level camX camY).1) ∧
      (drawEverythingCam level camX camY).1 + Int.tdiv SCREEN_WIDTH 2 =
        Int.tdiv (level.width * level.tileSize) 2) ∧
    (INT_MIN ≤ level.height * level.tileSize →
      level.height * level.tileSize < SCREEN_HEIGHT →
      (drawEverythingCam level camX camY).2 =
        Int.tdiv (level.height * level.tileSize) 2 - Int.tdiv SCREEN_HEIGHT 2 ∧
      (∀ otherX otherY : Int, (drawEverythingCam level otherX otherY).2 =
        (drawEverythingCam level camX camY).2) ∧
      (drawEverythingCam level camX camY).2 + Int.tdiv SCREEN_HEIGHT 2 =
        Int.tdiv (level.height * level.tileSize) 2) := by
  have hx : ∀ cx cy : Int, wrapInt (level.width * level.tileSize) < 1600 →
      (drawEverythingCam level cx cy).1 =
        Int.tdiv (wrapInt (level.width * level.tileSize)) 2 - 800 := by
    intro cx cy h
    have hr := wrapInt_range (level.width * level.tileSize)
    have hb := tdiv_two_bounds (wrapInt (level.width * level.tileSize))
    rw [drawEverythingCam_fst, if_pos (by omega)]
    apply wrapInt_eq_self
    · unfold INT_MIN at hr ⊢; omega
    · unfold INT_MAX; omega
  have hy : ∀ cx cy : Int, wrapInt (level.height * level.tileSize) < 900 →
      (drawEverythingCam level cx cy).2 =
        Int.tdiv (wrapInt (level.height * level.tileSize)) 2 - 450 := by
    intro cx cy h
    have hr := wrapInt_range (level.height * level.tileSize)
    have hb := tdiv_two_bounds (wrapInt (level.height * level.tileSize))
    rw [drawEverythingCam_snd, if_pos (by omega)]
    apply wrapInt_eq_self
    · unfold INT_MIN at hr ⊢; omega
    · unfold INT_MAX; omega
  rw [tdiv_screen_width, tdiv_screen_height]
  simp only [SCREEN_WIDTH, SCREEN_HEIGHT, worldWidthPx, worldHeightPx]
  refine ⟨fun h => ?_, fun h => ?_, fun hmin h => ?_, fun hmin h => ?_⟩
  · refine ⟨hx _ _ h, fun ox oy => ?_, ?_⟩
    · rw [hx _ _ h, hx _ _ h]
    · rw [hx _ _ h]; omega
  · refine ⟨hy _ _ h, fun ox oy => ?_, ?_⟩
    · rw [hy _ _ h, hy _ _ h]
    · rw [hy _ _ h]; omega
  · have he : wrapInt (level.width * level.tileSize) = level.width * level.tileSize :=
      wrapInt_eq_self _ hmin (by unfold INT_MAX; omega)
    have h2 : wrapInt (level.width * level.tileSize) < 1600 := by rw [he]; exact h
    refine ⟨?_, fun ox oy => ?_, ?_⟩
    · rw [hx _ _ h2, he]
    · rw [hx _ _ h2, hx _ _ h2]
    · rw [hx _ _ h2, he]; omega
  · have he : wrapInt (level.height * level.tileSize) = level.height * level.tileSize :=
      wrapInt_eq_self _ hmin (by unfold INT_MAX; omega)
    have h2 : wrapInt (level.height * level.tileSize) < 900 := by rw [he]; exact h
    refine ⟨?_, fun ox oy => ?_, ?_⟩
    · rw [hy _ _ h2, he]
    · rw [hy _ _ h2, hy _ _ h2]
    · rw [hy _ _ h2, he]; omega

/-- Witness of C5 on the 10 x 5 world (320 x 160 pixels): the camera is
`(-640, -370)` for the actor centre `(12345, -999)`. -/
theorem camera_small_world_witness :
    (worldWidthPx smallWorld < SCREEN_WIDTH ∧
      worldHeightPx smallWorld < SCREEN_HEIGHT ∧
      INT_MIN ≤ smallWorld.width * smallWorld.tileSize ∧
      smallWorld.width * smallWorld.tileSize < SCREEN_WIDTH ∧
      INT_MIN ≤ smallWorld.height * smallWorld.tileSize ∧
      smallWorld.height * smallWorld.tileSize < SCREEN_HEIGHT) ∧
    (drawEverythingCam smallWorld 12345 (-999)).1 =
      Int.tdiv (worldWidthPx smallWorld) 2 - Int.tdiv SCREEN_WIDTH 2 ∧
    (drawEverythingCam smallWorld 12345 (-999)).2 =
      Int.tdiv (worldHeightPx smallWorld) 2 - Int.tdiv SCREEN_HEIGHT 2 ∧
    (drawEverythingCam smallWorld 12345 (-999)).1 =
      Int.tdiv (smallWorld.width * smallWorld.tileSize) 2 - Int.tdiv SCREEN_WIDTH 2 ∧
    (drawEverythingCam smallWorld 12345 (-999)).2 =
      Int.tdiv (smallWorld.height * smallWorld.tileSize) 2 - Int.tdiv SCREEN_HEIGHT 2 :=
  ⟨by decide,
   ((camera_small_world smallWorld 12345 (-999)).1 (by decide)).1,
   ((camera_small_world smallWorld 12345 (-999)).2.1 (by decide)).1,
   ((camera_small_world smallWorld 12345 (-999)).2.2.1 (by decide) (by decide)).1,
   ((camera_small_world smallWorld 12345 (-999)).2.2.2 (by decide) (by decide)).1⟩

/-- C9, as the claim states it, fails: on the 100 x 50 world (tile size 32) the
actor centres `INT_MIN ≤ 0` give the camera x `2147482848` and `-32`: for
`INT_MIN`, `camX -= 800` overflows and no clamp fires. -/
theorem camera_monotone_counterexample :
    0 < wideWorld.tileSize ∧ INT_MIN ≤ (0 : Int) ∧
    (drawEverythingCam wideWorld INT_MIN 0).1 = 2147482848 ∧
    (drawEverythingCam wideWorld 0 0).1 = -32 ∧
    ¬ ((drawEverythingCam wideWorld INT_MIN 0).1 ≤ (drawEverythingCam wideWorld 0 0).1) := by
  decide

/-- C9, amended (camera monotonicity): for a fixed world with positive tile size
whose pixel extent on an axis lies in `[INT_MIN, INT_MAX]` with
`worldExtent - viewportExtent + tileSize ≤ INT_MAX`, and two actor centres
`c1 ≤ c2` on that axis with `INT_MIN ≤ c1 - viewportExtent / 2` and
`c2 + viewportExtent / 2 ≤ INT_MAX`, the camera coordinate computed for `c1` is at
most the one computed for `c2`. -/
theorem camera_monotone (level : World) (x1 y1 x2 y2 : Int)
    (hts : 0 < level.tileSize) :
    (INT_MIN ≤ level.width * level.tileSize →
      level.width * level.tileSize ≤ INT_MAX →
      level.width * level.tileSize - SCREEN_WIDTH + level.tileSize ≤ INT_MAX →
      INT_MIN ≤ x1 - Int.tdiv SCREEN_WIDTH 2 →
      x2 + Int.tdiv SCREEN_WIDTH 2 ≤ INT_MAX →
      x1 ≤ x2 →
      (drawEverythingCam level x1 y1).1 ≤ (drawEverythingCam level x2 y2).1) ∧
    (INT_MIN ≤ level.height * level.tileSize →
      level.height * level.tileSize ≤ INT_MAX →
      level.height * level.tileSize - SCREEN_HEIGHT + level.tileSize ≤ INT_MAX →
      INT_MIN ≤ y1 - Int.tdiv SCREEN_HEIGHT 2 →
      y2 + Int.tdiv SCREEN_HEIGHT 2 ≤ INT_MAX →
      y1 ≤ y2 →
      (drawEverythingCam level x1 y1).2 ≤ (drawEverythingCam level x2 y2).2) := by
  rw [tdiv_screen_width, tdiv_screen_height]
  simp only [SCREEN_WIDTH, SCREEN_HEIGHT]
  constructor
  · intro hmin hfit hupper hlo hhi hle
    rcases le_or_lt (level.width * level.tileSize) 1600 with hsmall | hbig
    · have he := wrapInt_eq_self _ hmin hfit
      rw [drawEverythingCam_fst, drawEverythingCam_fst, he, if_pos (by omega),
        if_pos (by omega)]
    · rw [camX_exact level x1 y1 hbig hfit hupper hlo (by omega) (by omega)
          (by unfold INT_MIN; omega),
        camX_exact level x2 y2 hbig hfit hupper (by omega) (by omega) (by omega)
          (by unfold INT_MIN; omega)]
      split_ifs <;> omega
  · intro hmin hfit hupper hlo hhi hle
    rcases le_or_lt (level.height * level.tileSize) 900 with hsmall | hbig
    · have he := wrapInt_eq_self _ hmin hfit
      rw [drawEverythingCam_snd, drawEverythingCam_snd, he, if_pos (by omega),
        if_pos (by omega)]
    · rw [camY_exact level x1 y1 hbig hfit hupper hlo (by omega) (by omega)
          (by unfold INT_MIN; omega),
        camY_exact level x2 y2 hbig hfit hupper (by omega) (by omega) (by omega)
          (by unfold INT_MIN; omega)]
      split_ifs <;> omega

/-- Witness of the amended C9 on the 100 x 50 world: from the actor centre
`(100, 2000)` to `(900, 2100)` the camera goes from `(-32, 732)` to `(100, 732)`. -/
theorem camera_monotone_witness :
    (0 < wideWorld.tileSize ∧
      INT_MIN ≤ wideWorld.width * wideWorld.tileSize ∧
      wideWorld.width * wideWorld.tileSize ≤ INT_MAX ∧
      wideWorld.width * wideWorld.tileSize - SCREEN_WIDTH + wideWorld.tileSize ≤ INT_MAX ∧
      INT_MIN ≤ (100 : Int) - Int.tdiv SCREEN_WIDTH 2 ∧
      (900 : Int) + Int.tdiv SCREEN_WIDTH 2 ≤ INT_MAX ∧ (100 : Int) ≤ 900 ∧
      INT_MIN ≤ wideWorld.height * wideWorld.tileSize ∧
      wideWorld.height * wideWorld.tileSize ≤ INT_MAX ∧
      wideWorld.height * wideWorld.tileSize - SCREEN_HEIGHT + wideWorld.tileSize ≤
        INT_MAX ∧
      INT_MIN ≤ (2000 : Int) - Int.tdiv SCREEN_HEIGHT 2 ∧
      (2100 : Int) + Int.tdiv SCREEN_HEIGHT 2 ≤ INT_MAX ∧ (2000 : Int) ≤ 2100) ∧
    (drawEverythingCam wideWorld 100 2000).1 ≤ (drawEverythingCam wideWorld 900 2100).1 ∧
    (drawEverythingCam wideWorld 100 2000).2 ≤ (drawEverythingCam wideWorld 900 2100).2 :=
  ⟨by decide,
   (camera_monotone wideWorld 100 2000 900 2100 (by decide)).1 (by decide) (by decide)
     (by decide) (by decide) (by decide) (by decide),
   (camera_monotone wideWorld 100 2000 900 2100 (by decide)).2 (by decide) (by decide)
     (by decide) (by decide) (by decide) (by decide)⟩

end PlatformerEngine
